import Mathlib

deriving instance DecidableEq for Except

/-
Verification development for the tzh translation utility.

The repository has three Rust source files:
  src/main.rs        — CLI surface, input classifier (has_blank), dispatcher
  src/translator.rs  — HTTP translation client: request building, response
                       cleanup (trim + quote stripping), retry loop with
                       linear backoff, per-result callback
  src/config.rs      — config store: load/merge/save of the TOML config file

This file gives a shallow embedding of those parts.  Strings that the
cleanup slices are modelled as lists of characters; the remote API is an
oracle assigning an outcome to each attempt; file and network effects are
modelled by explicit state passing and event traces.
-/

namespace Tzh

/-! ### Characters and the response cleanup (translator.rs lines 150-161 and 259-270) -/

/-- The double-quote character, the first alternative in the quote check. -/
def doubleQuote : Char := Char.ofNat 34

/-- The single-quote character, the second alternative in the quote check. -/
def singleQuote : Char := Char.ofNat 39

/-- The Unicode White_Space property, the trait behind the trim method used
at translator.rs line 150 (`chat_response.choices[0].message.content.trim()`).
Note this is the full Unicode set, which includes the vertical tab 0x0B and
non-ASCII code points such as 0xA0 and 0x3000. -/
def rustIsWhitespace (c : Char) : Bool :=
  [0x09, 0x0A, 0x0B, 0x0C, 0x0D, 0x20, 0x85, 0xA0, 0x1680,
   0x2000, 0x2001, 0x2002, 0x2003, 0x2004, 0x2005, 0x2006, 0x2007,
   0x2008, 0x2009, 0x200A, 0x2028, 0x2029, 0x202F, 0x205F, 0x3000].contains c.toNat

/-- The trim method: drop leading and trailing whitespace characters. -/
def rustTrim (l : List Char) : List Char :=
  ((l.dropWhile rustIsWhitespace).reverse.dropWhile rustIsWhitespace).reverse

/-- The starts_with method applied at a single character pattern. -/
def strStartsWith (c : Char) : List Char → Bool
  | [] => false
  | x :: _ => x == c

/-- The ends_with method applied at a single character pattern. -/
def strEndsWith (c : Char) (l : List Char) : Bool :=
  match l.getLast? with
  | some x => x == c
  | none => false

/-- Range slicing `&t[a..b]`.  Rust panics when the range is inverted or out
of bounds; the panic is modelled as `none`.  (The source only slices between
ASCII quote characters, so character positions and byte positions agree.) -/
def rustSliceChars (l : List Char) (a b : Nat) : Option (List Char) :=
  if a ≤ b ∧ b ≤ l.length then some ((l.drop a).take (b - a)) else none

/-- The response cleanup shared by both attempt functions
(translator.rs lines 150-161 and 259-270): trim the content, then, when the
trimmed text starts and ends with a double quote or starts and ends with a
single quote, slice off one byte from each end.  The source has no length
guard before the slice `&translated_text[1..translated_text.len() - 1]`. -/
def cleanedText (content : List Char) : Option (List Char) :=
  if (strStartsWith doubleQuote (rustTrim content) && strEndsWith doubleQuote (rustTrim content))
      || (strStartsWith singleQuote (rustTrim content) && strEndsWith singleQuote (rustTrim content)) then
    rustSliceChars (rustTrim content) 1 ((rustTrim content).length - 1)
  else
    some (rustTrim content)

/-! ### The input classifier (main.rs lines 75-77) -/

/-- The byte predicate `u8::is_ascii_whitespace`: space, horizontal tab,
line feed, form feed, carriage return.  The vertical tab 0x0B is not in
this set. -/
def byteIsAsciiWhitespace (b : Nat) : Bool :=
  b == 0x20 || b == 0x09 || b == 0x0A || b == 0x0C || b == 0x0D

/-- `has_blank` from main.rs: does any byte of the input satisfy
`u8::is_ascii_whitespace`?  The input is taken as its UTF-8 byte sequence. -/
def has_blank (bytes : List Nat) : Bool :=
  bytes.any byteIsAsciiWhitespace

/-- The two prompting modes of the dispatcher. -/
inductive Mode
  | word
  | line
deriving DecidableEq

/-- The dispatch in main.rs lines 134 and 218: whitespace routes to line
mode, otherwise word mode. -/
def routeMode (bytes : List Nat) : Mode :=
  if has_blank bytes then Mode.line else Mode.word

/-! ### The config store (config.rs) -/

/-- The Config struct of config.rs.  The f32 temperature is modelled as a
rational number; only storage and copying of it occur, no arithmetic. -/
structure Config where
  endpoint : String
  api_key : Option String
  model : String
  timeout : Nat
  temperature : Rat
  max_tokens : Option Int
deriving DecidableEq

/-- The Default instance of Config (config.rs lines 27-38). -/
def defaultConfig : Config :=
  { endpoint := "https://api.deepseek.com/v1"
    api_key := none
    model := "deepseek-chat"
    timeout := 30
    temperature := 13 / 10
    max_tokens := some 2000 }

/-- The optional-field struct the file content is deserialized into
(config.rs lines 17-25): every field may be absent from the file. -/
structure RawConfig where
  endpoint : Option String
  api_key : Option String
  model : Option String
  timeout : Option Nat
  temperature : Option Rat
  max_tokens : Option (Option Int)
deriving DecidableEq

/-- The on-disk TOML table produced by `toml::to_string_pretty`: one
optional entry per key; `some` means the key is present in the file.  TOML
has no null value, so a field of the record that is `None` is simply
omitted by serialization. -/
structure TomlFile where
  endpoint : Option String
  api_key : Option String
  model : Option String
  timeout : Option Nat
  temperature : Option Rat
  max_tokens : Option Int
deriving DecidableEq

/-- Serialization performed by Config::save (config.rs lines 72-82):
present values become keys of the file; absent `api_key` or `max_tokens`
produce no key. -/
def tomlSerialize (c : Config) : TomlFile :=
  { endpoint := some c.endpoint
    api_key := c.api_key
    model := some c.model
    timeout := some c.timeout
    temperature := some c.temperature
    max_tokens := c.max_tokens }

/-- Deserialization of the file into the optional-field struct.  A present
key always carries a value, so the doubly-optional `max_tokens` can only be
absent or `some (some n)`, never `some none`. -/
def tomlParse (f : TomlFile) : RawConfig :=
  { endpoint := f.endpoint
    api_key := f.api_key
    model := f.model
    timeout := f.timeout
    temperature := f.temperature
    max_tokens := f.max_tokens.map some }

/-- Whether every one of the six keys is present in the file. -/
def TomlFile.hasAllKeys (f : TomlFile) : Bool :=
  f.endpoint.isSome && f.api_key.isSome && f.model.isSome &&
  f.timeout.isSome && f.temperature.isSome && f.max_tokens.isSome

/-- Config::load (config.rs lines 41-70) as a function of the file state:
if the file exists, parse it into the optional-field struct, merge
field-by-field with the defaults exactly as in the source
(`unwrap_or` for five fields, `or` for `api_key`), then save the merged
record; if the file does not exist, save and return the defaults.  The
returned pair is the in-memory record and the new file state. -/
def configLoad : Option TomlFile → Config × Option TomlFile
  | some file =>
    let raw := tomlParse file
    let d := defaultConfig
    let config : Config :=
      { endpoint := raw.endpoint.getD d.endpoint
        api_key := raw.api_key.or d.api_key
        model := raw.model.getD d.model
        timeout := raw.timeout.getD d.timeout
        temperature := raw.temperature.getD d.temperature
        max_tokens := raw.max_tokens.getD d.max_tokens }
    (config, some (tomlSerialize config))
  | none =>
    (defaultConfig, some (tomlSerialize defaultConfig))

/-! ### Chat types and their JSON serialization (translator.rs lines 8-30) -/

/-- The ChatMessage struct: a role and a content string. -/
structure ChatMessage where
  role : String
  content : String
deriving DecidableEq

/-- The ChatRequest struct.  The derived serde Serialize has no
skip-if-none attribute on `max_tokens`. -/
structure ChatRequest where
  model : String
  messages : List ChatMessage
  temperature : Rat
  max_tokens : Option Int
deriving DecidableEq

/-- The ChatChoice struct of the response. -/
structure ChatChoice where
  message : ChatMessage
deriving DecidableEq

/-- The ChatResponse struct of the response. -/
structure ChatResponse where
  choices : List ChatChoice
deriving DecidableEq

/-- A JSON value, for stating what serde_json produces. -/
inductive Json
  | null
  | str (s : String)
  | num (q : Rat)
  | arr (elems : List Json)
  | obj (fields : List (String × Json))

/-- Key lookup inside a JSON object. -/
def Json.lookupKey (j : Json) (k : String) : Option Json :=
  match j with
  | Json.obj fields => fields.lookup k
  | _ => none

/-- serde_json serialization of a ChatMessage. -/
def serializeChatMessage (m : ChatMessage) : Json :=
  Json.obj [("role", Json.str m.role), ("content", Json.str m.content)]

/-- serde_json serialization of a ChatRequest, with the derived behavior
for the Option field: `None` serializes as JSON null under the key, it is
not skipped. -/
def serializeChatRequest (r : ChatRequest) : Json :=
  Json.obj
    [("model", Json.str r.model),
     ("messages", Json.arr (r.messages.map serializeChatMessage)),
     ("temperature", Json.num r.temperature),
     ("max_tokens",
      match r.max_tokens with
      | none => Json.null
      | some n => Json.num (n : Rat))]

/-! ### Prompt construction (translator.rs lines 273-339) -/

/-- The language code to display name table (translator.rs lines 320-339). -/
def lang_code_to_name (code : String) : String :=
  match code with
  | "zh" | "zh-cn" => "Chinese"
  | "zh-tw" => "Traditional Chinese"
  | "en" => "English"
  | "ja" => "Japanese"
  | "ko" => "Korean"
  | "fr" => "French"
  | "de" => "German"
  | "es" => "Spanish"
  | "it" => "Italian"
  | "pt" => "Portuguese"
  | "ru" => "Russian"
  | "ar" => "Arabic"
  | "hi" => "Hindi"
  | "th" => "Thai"
  | "vi" => "Vietnamese"
  | _ => code

/-- The system prompt of the line mode (translator.rs line 101). -/
def lineSystemPrompt : String :=
  "You are a professional translator. Translate the given text accurately while preserving the original meaning and tone. Only return the translated text without any explanations or additional content. If the input contains no valid characters or is empty, return an empty line."

/-- The system prompt of the word mode (translator.rs line 210). -/
def wordSystemPrompt : String :=
  "You are a professional translator and dictionary. When given a single word or phrase, provide the most common translation with brief context if needed. Only return the translation without explanations. If the input contains no valid characters or is empty, return an empty line."

/-- build_line_translation_prompt (translator.rs lines 273-296). -/
def build_line_translation_prompt (text target_lang : String)
    (source_lang : Option String) : String :=
  match source_lang with
  | some source =>
    "Translate the following text from " ++ lang_code_to_name source ++
      " to " ++ lang_code_to_name target_lang ++ ":\n\n" ++ text
  | none =>
    "Translate the following text to " ++ lang_code_to_name target_lang ++
      ":\n\n" ++ text

/-- build_word_translation_prompt (translator.rs lines 298-318). -/
def build_word_translation_prompt (word target_lang : String)
    (source_lang : Option String) : String :=
  match source_lang with
  | some source =>
    "Translate this " ++ lang_code_to_name source ++ " word to " ++
      lang_code_to_name target_lang ++ ": " ++ word
  | none =>
    "Translate this word to " ++ lang_code_to_name target_lang ++ ": " ++ word

/-! ### One request attempt (translator.rs lines 90-162 and 199-271) -/

/-- The error cases an attempt can produce, matching the four failure
sites in each attempt function.  A send failure carries the anyhow context
string attached at the send site; the two attempt functions attach
different context strings there (translator.rs lines 129 and 238), while
the status, parse and empty-choices messages are literally identical
between the two functions. -/
inductive ApiError
  | sendFailed (context : String)
  | status (code : Nat) (body : String)
  | parseFailed
  | noChoices
deriving DecidableEq

/-- What the 2xx body turned out to be: valid JSON of the expected shape,
or not. -/
inductive HttpBody
  | unparseable
  | parsed (resp : ChatResponse)
deriving DecidableEq

/-- The remote side of one attempt: either the send itself failed, or a
reply arrived with a status code, an optional readable body text, and a
body.  The body text is `none` when reading the error body itself failed
(the source maps that to an empty string via `unwrap_or_default`). -/
inductive RemoteOutcome
  | sendError
  | reply (statusCode : Nat) (bodyText : Option String) (body : HttpBody)
deriving DecidableEq

/-- reqwest `StatusCode::is_success`: the 2xx range. -/
def statusIsSuccess (status : Nat) : Bool :=
  decide (200 ≤ status ∧ status < 300)

/-- The request as composed by an attempt: URL, optional Authorization
header value, JSON body. -/
structure BuiltRequest where
  url : String
  authHeader : Option String
  body : ChatRequest
deriving DecidableEq

/-- translate_line_attempt (translator.rs lines 90-162): compose the
request (line prompts, config model, temperature and max_tokens, endpoint
slash chat/completions URL, bearer header only for a present non-empty
key), then handle the outcome: send failure, non-2xx status carrying
status and body text, parse failure, empty choices, else trim and
quote-strip the first choice content.  The `none` result is the panic of
the unguarded slice inside the cleanup. -/
def translate_line_attempt (cfg : Config) (text target_lang : String)
    (source_lang : Option String) (outcome : RemoteOutcome) :
    BuiltRequest × Option (Except ApiError String) :=
  let prompt := build_line_translation_prompt text target_lang source_lang
  let messages : List ChatMessage :=
    [{ role := "system", content := lineSystemPrompt },
     { role := "user", content := prompt }]
  let request : ChatRequest :=
    { model := cfg.model
      messages := messages
      temperature := cfg.temperature
      max_tokens := cfg.max_tokens }
  let url : String := cfg.endpoint ++ "/chat/completions"
  let authHeader : Option String :=
    match cfg.api_key with
    | some api_key => if api_key.isEmpty then none else some ("Bearer " ++ api_key)
    | none => none
  let result : Option (Except ApiError String) :=
    match outcome with
    | RemoteOutcome.sendError =>
      some (Except.error (ApiError.sendFailed "Failed to send translation request"))
    | RemoteOutcome.reply statusCode bodyText body =>
      if statusIsSuccess statusCode then
        match body with
        | HttpBody.unparseable => some (Except.error ApiError.parseFailed)
        | HttpBody.parsed chat_response =>
          match chat_response.choices with
          | [] => some (Except.error ApiError.noChoices)
          | choice :: _ =>
            match cleanedText choice.message.content.toList with
            | none => none
            | some cs => some (Except.ok (String.mk cs))
      else
        some (Except.error (ApiError.status statusCode (bodyText.getD "")))
  ({ url := url, authHeader := authHeader, body := request }, result)

/-- translate_word_attempt (translator.rs lines 199-271): the source
duplicates the whole attempt body, differing from the line version only in
the two prompt strings. -/
def translate_word_attempt (cfg : Config) (word target_lang : String)
    (source_lang : Option String) (outcome : RemoteOutcome) :
    BuiltRequest × Option (Except ApiError String) :=
  let prompt := build_word_translation_prompt word target_lang source_lang
  let messages : List ChatMessage :=
    [{ role := "system", content := wordSystemPrompt },
     { role := "user", content := prompt }]
  let request : ChatRequest :=
    { model := cfg.model
      messages := messages
      temperature := cfg.temperature
      max_tokens := cfg.max_tokens }
  let url : String := cfg.endpoint ++ "/chat/completions"
  let authHeader : Option String :=
    match cfg.api_key with
    | some api_key => if api_key.isEmpty then none else some ("Bearer " ++ api_key)
    | none => none
  let result : Option (Except ApiError String) :=
    match outcome with
    | RemoteOutcome.sendError =>
      some (Except.error (ApiError.sendFailed "Failed to send word translation request"))
    | RemoteOutcome.reply statusCode bodyText body =>
      if statusIsSuccess statusCode then
        match body with
        | HttpBody.unparseable => some (Except.error ApiError.parseFailed)
        | HttpBody.parsed chat_response =>
          match chat_response.choices with
          | [] => some (Except.error ApiError.noChoices)
          | choice :: _ =>
            match cleanedText choice.message.content.toList with
            | none => none
            | some cs => some (Except.ok (String.mk cs))
      else
        some (Except.error (ApiError.status statusCode (bodyText.getD "")))
  ({ url := url, authHeader := authHeader, body := request }, result)

/-- Common abstraction of the two attempt bodies, parameterized by the two
prompt strings and by the context message attached to a send failure;
stated from the duplicated source text for the refinement comparison of
claim C10. -/
def generic_attempt (cfg : Config) (systemPrompt userPrompt sendContext : String)
    (outcome : RemoteOutcome) :
    BuiltRequest × Option (Except ApiError String) :=
  let messages : List ChatMessage :=
    [{ role := "system", content := systemPrompt },
     { role := "user", content := userPrompt }]
  let request : ChatRequest :=
    { model := cfg.model
      messages := messages
      temperature := cfg.temperature
      max_tokens := cfg.max_tokens }
  let url : String := cfg.endpoint ++ "/chat/completions"
  let authHeader : Option String :=
    match cfg.api_key with
    | some api_key => if api_key.isEmpty then none else some ("Bearer " ++ api_key)
    | none => none
  let result : Option (Except ApiError String) :=
    match outcome with
    | RemoteOutcome.sendError => some (Except.error (ApiError.sendFailed sendContext))
    | RemoteOutcome.reply statusCode bodyText body =>
      if statusIsSuccess statusCode then
        match body with
        | HttpBody.unparseable => some (Except.error ApiError.parseFailed)
        | HttpBody.parsed chat_response =>
          match chat_response.choices with
          | [] => some (Except.error ApiError.noChoices)
          | choice :: _ =>
            match cleanedText choice.message.content.toList with
            | none => none
            | some cs => some (Except.ok (String.mk cs))
      else
        some (Except.error (ApiError.status statusCode (bodyText.getD "")))
  ({ url := url, authHeader := authHeader, body := request }, result)

/-! ### The retry loop (translator.rs lines 50-88 and 164-197) -/

/-- Observable actions of one translate call: a request attempt going out,
a backoff sleep in milliseconds, a callback invocation. -/
inductive Event
  | request (attempt : Nat)
  | sleep (ms : Nat)
  | callback (original translation : String)
deriving DecidableEq

/-- Is the event a request? -/
def isRequest : Event → Bool
  | Event.request _ => true
  | _ => false

/-- Is the event a callback invocation? -/
def isCallback : Event → Bool
  | Event.callback _ _ => true
  | _ => false

/-- Number of request events of a trace. -/
def requestCount (evs : List Event) : Nat :=
  evs.countP isRequest

/-- Number of callback events of a trace. -/
def callbackCount (evs : List Event) : Nat :=
  evs.countP isCallback

/-- The `for attempt in 1..=max_retries` loop shared by translate_line and
translate_word: run the attempts in order; a success stops the loop with
the translation; a failure is recorded as the last error and, when more
attempts remain (`attempt < max_retries`), is followed by a sleep of
`1000 * attempt` milliseconds.  An exhausted list surfaces the last error
(`last_error.unwrap()`; the fallback value is unreachable for a nonempty
attempt list).  A `none` from the step is the panic inside the cleanup and
aborts the whole run. -/
def attemptLoop (step : Nat → Option (Except ApiError String)) (max_retries : Nat) :
    List Nat → Option ApiError → Option (Except ApiError String × List Event)
  | [], lastError => some (Except.error (lastError.getD ApiError.noChoices), [])
  | attempt :: rest, _ =>
    match step attempt with
    | none => none
    | some (Except.ok r) => some (Except.ok r, [Event.request attempt])
    | some (Except.error e) =>
      match attemptLoop step max_retries rest (some e) with
      | none => none
      | some (res, evs) =>
        some (res, Event.request attempt ::
          ((if attempt < max_retries then [Event.sleep (1000 * attempt)] else []) ++ evs))

/-- translate_line (translator.rs lines 50-88): empty text short-circuits
to an immediate callback with an empty translation and no attempt;
otherwise the attempts 1, 2, 3 run through the retry loop, a success fires
the callback with the original text and the cleaned translation, and an
exhausted loop returns the last error without firing the callback. -/
def translate_line (cfg : Config) (text target_lang : String)
    (source_lang : Option String) (outcomes : Nat → RemoteOutcome) :
    Option (Except ApiError Unit × List Event) :=
  if text.isEmpty then
    some (Except.ok (), [Event.callback text ""])
  else
    match attemptLoop
        (fun attempt => (translate_line_attempt cfg text target_lang source_lang (outcomes attempt)).2)
        3 [1, 2, 3] none with
    | none => none
    | some (Except.ok translation, evs) =>
      some (Except.ok (), evs ++ [Event.callback text translation])
    | some (Except.error e, evs) => some (Except.error e, evs)

/-- translate_word (translator.rs lines 164-197): same retry loop and
callback contract as translate_line, but with the word attempt and without
any empty-text short-circuit. -/
def translate_word (cfg : Config) (word target_lang : String)
    (source_lang : Option String) (outcomes : Nat → RemoteOutcome) :
    Option (Except ApiError Unit × List Event) :=
  match attemptLoop
      (fun attempt => (translate_word_attempt cfg word target_lang source_lang (outcomes attempt)).2)
      3 [1, 2, 3] none with
  | none => none
  | some (Except.ok translation, evs) =>
    some (Except.ok (), evs ++ [Event.callback word translation])
  | some (Except.error e, evs) => some (Except.error e, evs)

/-! ### Helper lemmas -/

/-- A list starts with at most one character. -/
lemma strStartsWith_unique {c d : Char} {l : List Char}
    (hc : strStartsWith c l = true) (hd : strStartsWith d l = true) : c = d := by
  cases l with
  | nil => simp [strStartsWith] at hc
  | cons x xs =>
    simp [strStartsWith] at hc hd
    rw [← hc, ← hd]

/-- A list ends with at most one character. -/
lemma strEndsWith_unique {c d : Char} {l : List Char}
    (hc : strEndsWith c l = true) (hd : strEndsWith d l = true) : c = d := by
  unfold strEndsWith at hc hd
  cases h : l.getLast? with
  | none => rw [h] at hc; simp at hc
  | some x =>
    rw [h] at hc hd
    simp at hc hd
    rw [← hc, ← hd]

/-! ### Claim theorems: cleanup, serialization, classifier, config -/

/-- C1: the quote stripping has no length guard in the source: a response
whose trimmed content is a single quote character satisfies both the
starts_with and the ends_with test, and the slice `[1..0]` panics
(modelled as `none`) instead of returning the text unchanged; a properly
wrapped response of length at least 2 is stripped by one character on each
end as the claim states. -/
theorem cleanup_panics_on_lone_quote :
    cleanedText (String.toList "\x22") = none ∧
    cleanedText (String.toList "\x27") = none ∧
    cleanedText (String.toList "\x22hi\x22") = some (String.toList "hi") ∧
    cleanedText (String.toList "  hi ") = some (String.toList "hi") := by
  decide

/-- C2 counterexample: for a configuration without a max_tokens value, the
serialized JSON body of the request composed by the line attempt does
carry the key "max_tokens", with value null — the claim says the key is
absent from the body. -/
theorem max_tokens_null_counterexample :
    Json.lookupKey (serializeChatRequest (translate_line_attempt
        { defaultConfig with max_tokens := none } "hi" "en" none
        RemoteOutcome.sendError).1.body) "max_tokens" = some Json.null ∧
    Json.lookupKey (serializeChatRequest (translate_line_attempt
        { defaultConfig with max_tokens := none } "hi" "en" none
        RemoteOutcome.sendError).1.body) "max_tokens" ≠ none := by
  have key : Json.lookupKey (serializeChatRequest (translate_line_attempt
      { defaultConfig with max_tokens := none } "hi" "en" none
      RemoteOutcome.sendError).1.body) "max_tokens" = some Json.null := rfl
  refine ⟨key, ?_⟩
  rw [key]
  simp

/-- C2 amended: the serialized body always carries a "max_tokens" key; it
is JSON null when the configuration value is absent and the integer value
when present, in both attempt functions. -/
theorem max_tokens_serialization (cfg : Config) (text target_lang : String)
    (source_lang : Option String) (outcome : RemoteOutcome) :
    Json.lookupKey (serializeChatRequest
        (translate_line_attempt cfg text target_lang source_lang outcome).1.body)
      "max_tokens" = some (match cfg.max_tokens with
                           | none => Json.null
                           | some n => Json.num (n : Rat)) ∧
    Json.lookupKey (serializeChatRequest
        (translate_word_attempt cfg text target_lang source_lang outcome).1.body)
      "max_tokens" = some (match cfg.max_tokens with
                           | none => Json.null
                           | some n => Json.num (n : Rat)) := by
  rcases cfg with ⟨e, a, m, t, tp, mt⟩
  cases mt <;> exact ⟨rfl, rfl⟩

/-- C3 counterexample: an input whose only candidate whitespace byte is the
vertical tab 0x0B is not classified as containing whitespace and is routed
to word mode, not line mode as the claim states. -/
theorem has_blank_vt_counterexample :
    has_blank [97, 0x0B, 98] = false ∧ routeMode [97, 0x0B, 98] = Mode.word := by
  decide

/-- C3 amended: has_blank is true exactly when some byte of the input is
one of the five bytes space, tab, LF, FF, CR — the vertical tab is not in
the set — and line mode is chosen exactly when has_blank holds. -/
theorem has_blank_iff (bytes : List Nat) :
    (has_blank bytes = true ↔
      ∃ b ∈ bytes, b = 0x20 ∨ b = 0x09 ∨ b = 0x0A ∨ b = 0x0C ∨ b = 0x0D) ∧
    (routeMode bytes = Mode.line ↔ has_blank bytes = true) := by
  constructor
  · unfold has_blank byteIsAsciiWhitespace
    rw [List.any_eq_true]
    constructor
    · rintro ⟨b, hb, hpred⟩
      exact ⟨b, hb, by simpa [or_assoc] using hpred⟩
    · rintro ⟨b, hb, hpred⟩
      exact ⟨b, hb, by simpa [or_assoc] using hpred⟩
  · unfold routeMode
    cases h : has_blank bytes <;> simp [h]

/-- C4 counterexample: applying the cleanup twice does not always yield the
result of applying it once — a doubly wrapped response loses one quote
pair per application. -/
theorem cleanup_not_idempotent_counterexample :
    cleanedText (String.toList "\x22\x27a\x27\x22") = some (String.toList "\x27a\x27") ∧
    cleanedText (String.toList "\x27a\x27") = some (String.toList "a") ∧
    (cleanedText (String.toList "\x22\x27a\x27\x22")).bind cleanedText ≠
      cleanedText (String.toList "\x22\x27a\x27\x22") := by
  decide

/-- C4 amended: the cleanup is not idempotent in general (a second
application can strip a further quote pair), but it never strips
mismatched outer quotes: when the trimmed text starts with one quote
character and ends with the other, it is returned unchanged apart from
trimming. -/
theorem cleanup_never_strips_mismatched_quotes (s : List Char)
    (h : (strStartsWith doubleQuote (rustTrim s) = true ∧
          strEndsWith singleQuote (rustTrim s) = true) ∨
         (strStartsWith singleQuote (rustTrim s) = true ∧
          strEndsWith doubleQuote (rustTrim s) = true)) :
    cleanedText s = some (rustTrim s) := by
  have hq : doubleQuote ≠ singleQuote := by decide
  have hneg : ¬ (((strStartsWith doubleQuote (rustTrim s) && strEndsWith doubleQuote (rustTrim s))
      || (strStartsWith singleQuote (rustTrim s) && strEndsWith singleQuote (rustTrim s))) = true) := by
    intro hg
    simp only [Bool.or_eq_true, Bool.and_eq_true] at hg
    rcases h with ⟨h1, h2⟩ | ⟨h1, h2⟩ <;> rcases hg with ⟨g1, g2⟩ | ⟨g1, g2⟩
    · exact hq (strEndsWith_unique g2 h2)
    · exact hq (strStartsWith_unique h1 g1)
    · exact hq (strStartsWith_unique g1 h1)
    · exact hq (strEndsWith_unique h2 g2)
  unfold cleanedText
  rw [if_neg hneg]

/-- Witness for the mismatched-quotes theorem at a concrete input. -/
theorem cleanup_never_strips_mismatched_quotes_witness :
    cleanedText (String.toList "\x22a\x27") = some (rustTrim (String.toList "\x22a\x27")) :=
  cleanup_never_strips_mismatched_quotes (String.toList "\x22a\x27") (Or.inl (by decide))

/-- C5 counterexample: after a load that finds no file, the rewritten
on-disk file does not contain the api_key key (the unset api_key cannot be
represented in TOML and serialization omits it), so the file does not
contain every configuration field as the claim states. -/
theorem config_file_omits_absent_api_key_counterexample :
    ((configLoad none).2.map TomlFile.hasAllKeys) = some false ∧
    ((configLoad none).2.map TomlFile.api_key) = some none := ⟨rfl, rfl⟩

/-- C5 amended: after load the on-disk file is the serialization of the
returned record; the endpoint, model, timeout and temperature keys are
always present, while the api_key and max_tokens keys are present exactly
when their values are; and a second load immediately afterwards returns an
identical in-memory record (and leaves the identical file). -/
theorem config_load_rewrites_file_and_reloads_identically (fs : Option TomlFile) :
    (configLoad fs).2 = some (tomlSerialize (configLoad fs).1) ∧
    (tomlSerialize (configLoad fs).1).endpoint.isSome = true ∧
    (tomlSerialize (configLoad fs).1).model.isSome = true ∧
    (tomlSerialize (configLoad fs).1).timeout.isSome = true ∧
    (tomlSerialize (configLoad fs).1).temperature.isSome = true ∧
    (tomlSerialize (configLoad fs).1).api_key = (configLoad fs).1.api_key ∧
    (tomlSerialize (configLoad fs).1).max_tokens = (configLoad fs).1.max_tokens ∧
    configLoad ((configLoad fs).2) = configLoad fs := by
  rcases fs with _ | f
  · exact ⟨rfl, rfl, rfl, rfl, rfl, rfl, rfl, rfl⟩
  · rcases f with ⟨e, a, m, t, tp, mt⟩
    cases a <;> cases mt <;> exact ⟨rfl, rfl, rfl, rfl, rfl, rfl, rfl, rfl⟩

/-! ### Retry-loop lemmas -/

@[simp] lemma isRequest_request (n : Nat) : isRequest (Event.request n) = true := rfl

@[simp] lemma isRequest_sleep (ms : Nat) : isRequest (Event.sleep ms) = false := rfl

@[simp] lemma isRequest_callback (o t : String) : isRequest (Event.callback o t) = false := rfl

@[simp] lemma isCallback_request (n : Nat) : isCallback (Event.request n) = false := rfl

@[simp] lemma isCallback_sleep (ms : Nat) : isCallback (Event.sleep ms) = false := rfl

@[simp] lemma isCallback_callback (o t : String) : isCallback (Event.callback o t) = true := rfl

/-- Loop outcome when the first attempt succeeds. -/
lemma attemptLoop_ok1 (step : Nat → Option (Except ApiError String)) (r : String)
    (h1 : step 1 = some (Except.ok r)) :
    attemptLoop step 3 [1, 2, 3] none = some (Except.ok r, [Event.request 1]) := by
  simp [attemptLoop, h1]

/-- Loop outcome when the first attempt fails and the second succeeds:
one backoff sleep of 1000 ms between the two requests. -/
lemma attemptLoop_err1_ok2 (step : Nat → Option (Except ApiError String))
    (e1 : ApiError) (r : String)
    (h1 : step 1 = some (Except.error e1)) (h2 : step 2 = some (Except.ok r)) :
    attemptLoop step 3 [1, 2, 3] none =
      some (Except.ok r, [Event.request 1, Event.sleep 1000, Event.request 2]) := by
  simp [attemptLoop, h1, h2]

/-- Loop outcome when the first two attempts fail and the third succeeds:
sleeps of 1000 and 2000 ms between consecutive requests. -/
lemma attemptLoop_err12_ok3 (step : Nat → Option (Except ApiError String))
    (e1 e2 : ApiError) (r : String)
    (h1 : step 1 = some (Except.error e1)) (h2 : step 2 = some (Except.error e2))
    (h3 : step 3 = some (Except.ok r)) :
    attemptLoop step 3 [1, 2, 3] none =
      some (Except.ok r, [Event.request 1, Event.sleep 1000, Event.request 2,
        Event.sleep 2000, Event.request 3]) := by
  simp [attemptLoop, h1, h2, h3]

/-- Loop outcome when all three attempts fail: exactly three requests, the
two backoff sleeps, no sleep after the final request, and the error of the
third attempt surfaces. -/
lemma attemptLoop_err123 (step : Nat → Option (Except ApiError String))
    (e1 e2 e3 : ApiError)
    (h1 : step 1 = some (Except.error e1)) (h2 : step 2 = some (Except.error e2))
    (h3 : step 3 = some (Except.error e3)) :
    attemptLoop step 3 [1, 2, 3] none =
      some (Except.error e3, [Event.request 1, Event.sleep 1000, Event.request 2,
        Event.sleep 2000, Event.request 3]) := by
  simp [attemptLoop, h1, h2, h3]

/-- Exhaustive case analysis of a non-panicking run of the three-attempt
loop. -/
lemma attemptLoop3_cases (step : Nat → Option (Except ApiError String))
    (res : Except ApiError String) (evs : List Event)
    (h : attemptLoop step 3 [1, 2, 3] none = some (res, evs)) :
    (∃ r, step 1 = some (Except.ok r) ∧ res = Except.ok r ∧ evs = [Event.request 1]) ∨
    (∃ e1 r, step 1 = some (Except.error e1) ∧ step 2 = some (Except.ok r) ∧
      res = Except.ok r ∧ evs = [Event.request 1, Event.sleep 1000, Event.request 2]) ∨
    (∃ e1 e2 r, step 1 = some (Except.error e1) ∧ step 2 = some (Except.error e2) ∧
      step 3 = some (Except.ok r) ∧ res = Except.ok r ∧
      evs = [Event.request 1, Event.sleep 1000, Event.request 2,
        Event.sleep 2000, Event.request 3]) ∨
    (∃ e1 e2 e3, step 1 = some (Except.error e1) ∧ step 2 = some (Except.error e2) ∧
      step 3 = some (Except.error e3) ∧ res = Except.error e3 ∧
      evs = [Event.request 1, Event.sleep 1000, Event.request 2,
        Event.sleep 2000, Event.request 3]) := by
  rcases hs1 : step 1 with _ | (e1 | r1)
  · simp [attemptLoop, hs1] at h
  · rcases hs2 : step 2 with _ | (e2 | r2)
    · simp [attemptLoop, hs1, hs2] at h
    · rcases hs3 : step 3 with _ | (e3 | r3)
      · simp [attemptLoop, hs1, hs2, hs3] at h
      · rw [attemptLoop_err123 step e1 e2 e3 hs1 hs2 hs3] at h
        simp only [Option.some.injEq, Prod.mk.injEq] at h
        exact Or.inr (Or.inr (Or.inr ⟨e1, e2, e3, rfl, rfl, rfl, h.1.symm, h.2.symm⟩))
      · rw [attemptLoop_err12_ok3 step e1 e2 r3 hs1 hs2 hs3] at h
        simp only [Option.some.injEq, Prod.mk.injEq] at h
        exact Or.inr (Or.inr (Or.inl ⟨e1, e2, r3, rfl, rfl, rfl, h.1.symm, h.2.symm⟩))
    · rw [attemptLoop_err1_ok2 step e1 r2 hs1 hs2] at h
      simp only [Option.some.injEq, Prod.mk.injEq] at h
      exact Or.inr (Or.inl ⟨e1, r2, rfl, rfl, h.1.symm, h.2.symm⟩)
  · rw [attemptLoop_ok1 step r1 hs1] at h
    simp only [Option.some.injEq, Prod.mk.injEq] at h
    exact Or.inl ⟨r1, rfl, h.1.symm, h.2.symm⟩

/-- Unfolding of translate_line for nonempty text when the loop succeeds. -/
lemma translate_line_loop_ok (cfg : Config) (text target_lang : String)
    (source_lang : Option String) (outcomes : Nat → RemoteOutcome)
    (r : String) (evs0 : List Event) (hE : text.isEmpty = false)
    (hloop : attemptLoop
        (fun attempt => (translate_line_attempt cfg text target_lang source_lang (outcomes attempt)).2)
        3 [1, 2, 3] none = some (Except.ok r, evs0)) :
    translate_line cfg text target_lang source_lang outcomes =
      some (Except.ok (), evs0 ++ [Event.callback text r]) := by
  unfold translate_line
  rw [if_neg (by simp [hE]), hloop]

/-- Unfolding of translate_line for nonempty text when the loop fails. -/
lemma translate_line_loop_err (cfg : Config) (text target_lang : String)
    (source_lang : Option String) (outcomes : Nat → RemoteOutcome)
    (e : ApiError) (evs0 : List Event) (hE : text.isEmpty = false)
    (hloop : attemptLoop
        (fun attempt => (translate_line_attempt cfg text target_lang source_lang (outcomes attempt)).2)
        3 [1, 2, 3] none = some (Except.error e, evs0)) :
    translate_line cfg text target_lang source_lang outcomes =
      some (Except.error e, evs0) := by
  unfold translate_line
  rw [if_neg (by simp [hE]), hloop]

/-- Unfolding of translate_line for nonempty text when an attempt panics. -/
lemma translate_line_loop_none (cfg : Config) (text target_lang : String)
    (source_lang : Option String) (outcomes : Nat → RemoteOutcome)
    (hE : text.isEmpty = false)
    (hloop : attemptLoop
        (fun attempt => (translate_line_attempt cfg text target_lang source_lang (outcomes attempt)).2)
        3 [1, 2, 3] none = none) :
    translate_line cfg text target_lang source_lang outcomes = none := by
  unfold translate_line
  rw [if_neg (by simp [hE]), hloop]

/-- Unfolding of translate_word when the loop succeeds. -/
lemma translate_word_loop_ok (cfg : Config) (word target_lang : String)
    (source_lang : Option String) (outcomes : Nat → RemoteOutcome)
    (r : String) (evs0 : List Event)
    (hloop : attemptLoop
        (fun attempt => (translate_word_attempt cfg word target_lang source_lang (outcomes attempt)).2)
        3 [1, 2, 3] none = some (Except.ok r, evs0)) :
    translate_word cfg word target_lang source_lang outcomes =
      some (Except.ok (), evs0 ++ [Event.callback word r]) := by
  unfold translate_word
  rw [hloop]

/-- Unfolding of translate_word when the loop fails. -/
lemma translate_word_loop_err (cfg : Config) (word target_lang : String)
    (source_lang : Option String) (outcomes : Nat → RemoteOutcome)
    (e : ApiError) (evs0 : List Event)
    (hloop : attemptLoop
        (fun attempt => (translate_word_attempt cfg word target_lang source_lang (outcomes attempt)).2)
        3 [1, 2, 3] none = some (Except.error e, evs0)) :
    translate_word cfg word target_lang source_lang outcomes =
      some (Except.error e, evs0) := by
  unfold translate_word
  rw [hloop]

/-- Unfolding of translate_word when an attempt panics. -/
lemma translate_word_loop_none (cfg : Config) (word target_lang : String)
    (source_lang : Option String) (outcomes : Nat → RemoteOutcome)
    (hloop : attemptLoop
        (fun attempt => (translate_word_attempt cfg word target_lang source_lang (outcomes attempt)).2)
        3 [1, 2, 3] none = none) :
    translate_word cfg word target_lang source_lang outcomes = none := by
  unfold translate_word
  rw [hloop]

/-! ### Claim theorems: retry loop, backoff, short-circuit, callback -/

/-- C6: for nonempty input, a non-panicking translate_line run and any
translate_word run make at most 3 request attempts; failures of any of
the four error kinds are retried uniformly: when the three attempts fail
with any errors e1, e2, e3, exactly 3 requests happen, the result is an
error, and it is the error of the last (third) attempt. -/
theorem retry_three_attempts :
    (∀ cfg text target_lang source_lang outcomes res evs,
      text.isEmpty = false →
      translate_line cfg text target_lang source_lang outcomes = some (res, evs) →
      requestCount evs ≤ 3 ∧
      (∀ e1 e2 e3,
        (translate_line_attempt cfg text target_lang source_lang (outcomes 1)).2 =
          some (Except.error e1) →
        (translate_line_attempt cfg text target_lang source_lang (outcomes 2)).2 =
          some (Except.error e2) →
        (translate_line_attempt cfg text target_lang source_lang (outcomes 3)).2 =
          some (Except.error e3) →
        res = Except.error e3 ∧ requestCount evs = 3)) ∧
    (∀ cfg word target_lang source_lang outcomes res evs,
      translate_word cfg word target_lang source_lang outcomes = some (res, evs) →
      requestCount evs ≤ 3 ∧
      (∀ e1 e2 e3,
        (translate_word_attempt cfg word target_lang source_lang (outcomes 1)).2 =
          some (Except.error e1) →
        (translate_word_attempt cfg word target_lang source_lang (outcomes 2)).2 =
          some (Except.error e2) →
        (translate_word_attempt cfg word target_lang source_lang (outcomes 3)).2 =
          some (Except.error e3) →
        res = Except.error e3 ∧ requestCount evs = 3)) := by
  constructor
  · intro cfg text tl sl outcomes res evs hE hrun
    rcases hloop : attemptLoop
        (fun attempt => (translate_line_attempt cfg text tl sl (outcomes attempt)).2)
        3 [1, 2, 3] none with _ | ⟨(e0 | r0), evs0⟩
    · rw [translate_line_loop_none cfg text tl sl outcomes hE hloop] at hrun
      simp at hrun
    · rw [translate_line_loop_err cfg text tl sl outcomes e0 evs0 hE hloop] at hrun
      simp only [Option.some.injEq, Prod.mk.injEq] at hrun
      obtain ⟨hres, hevs⟩ := hrun
      subst hres; subst hevs
      rcases attemptLoop3_cases _ _ _ hloop with
        ⟨r, hs1, hres0, hevs0⟩ | ⟨e1, r, hs1, hs2, hres0, hevs0⟩ |
        ⟨e1, e2, r, hs1, hs2, hs3, hres0, hevs0⟩ | ⟨e1, e2, e3, hs1, hs2, hs3, hres0, hevs0⟩
      · exact absurd hres0 (by simp)
      · exact absurd hres0 (by simp)
      · exact absurd hres0 (by simp)
      · subst hevs0
        constructor
        · simp [requestCount, List.countP_cons]
        · intro f1 f2 f3 h1 h2 h3
          rw [hs3] at h3
          simp only [Option.some.injEq, Except.error.injEq] at h3
          subst h3
          have he : e0 = e3 := by simpa using hres0
          exact ⟨by rw [he], by simp [requestCount, List.countP_cons]⟩
    · rw [translate_line_loop_ok cfg text tl sl outcomes r0 evs0 hE hloop] at hrun
      simp only [Option.some.injEq, Prod.mk.injEq] at hrun
      obtain ⟨hres, hevs⟩ := hrun
      subst hres; subst hevs
      rcases attemptLoop3_cases _ _ _ hloop with
        ⟨r, hs1, hres0, hevs0⟩ | ⟨e1, r, hs1, hs2, hres0, hevs0⟩ |
        ⟨e1, e2, r, hs1, hs2, hs3, hres0, hevs0⟩ | ⟨e1, e2, e3, hs1, hs2, hs3, hres0, hevs0⟩
      · subst hevs0
        refine ⟨by simp [requestCount, List.countP_cons, List.countP_append], ?_⟩
        intro f1 f2 f3 h1 h2 h3
        rw [hs1] at h1
        simp at h1
      · subst hevs0
        refine ⟨by simp [requestCount, List.countP_cons, List.countP_append], ?_⟩
        intro f1 f2 f3 h1 h2 h3
        rw [hs2] at h2
        simp at h2
      · subst hevs0
        refine ⟨by simp [requestCount, List.countP_cons, List.countP_append], ?_⟩
        intro f1 f2 f3 h1 h2 h3
        rw [hs3] at h3
        simp at h3
      · exact absurd hres0 (by simp)
  · intro cfg word tl sl outcomes res evs hrun
    rcases hloop : attemptLoop
        (fun attempt => (translate_word_attempt cfg word tl sl (outcomes attempt)).2)
        3 [1, 2, 3] none with _ | ⟨(e0 | r0), evs0⟩
    · rw [translate_word_loop_none cfg word tl sl outcomes hloop] at hrun
      simp at hrun
    · rw [translate_word_loop_err cfg word tl sl outcomes e0 evs0 hloop] at hrun
      simp only [Option.some.injEq, Prod.mk.injEq] at hrun
      obtain ⟨hres, hevs⟩ := hrun
      subst hres; subst hevs
      rcases attemptLoop3_cases _ _ _ hloop with
        ⟨r, hs1, hres0, hevs0⟩ | ⟨e1, r, hs1, hs2, hres0, hevs0⟩ |
        ⟨e1, e2, r, hs1, hs2, hs3, hres0, hevs0⟩ | ⟨e1, e2, e3, hs1, hs2, hs3, hres0, hevs0⟩
      · exact absurd hres0 (by simp)
      · exact absurd hres0 (by simp)
      · exact absurd hres0 (by simp)
      · subst hevs0
        constructor
        · simp [requestCount, List.countP_cons]
        · intro f1 f2 f3 h1 h2 h3
          rw [hs3] at h3
          simp only [Option.some.injEq, Except.error.injEq] at h3
          subst h3
          have he : e0 = e3 := by simpa using hres0
          exact ⟨by rw [he], by simp [requestCount, List.countP_cons]⟩
    · rw [translate_word_loop_ok cfg word tl sl outcomes r0 evs0 hloop] at hrun
      simp only [Option.some.injEq, Prod.mk.injEq] at hrun
      obtain ⟨hres, hevs⟩ := hrun
      subst hres; subst hevs
      rcases attemptLoop3_cases _ _ _ hloop with
        ⟨r, hs1, hres0, hevs0⟩ | ⟨e1, r, hs1, hs2, hres0, hevs0⟩ |
        ⟨e1, e2, r, hs1, hs2, hs3, hres0, hevs0⟩ | ⟨e1, e2, e3, hs1, hs2, hs3, hres0, hevs0⟩
      · subst hevs0
        refine ⟨by simp [requestCount, List.countP_cons, List.countP_append], ?_⟩
        intro f1 f2 f3 h1 h2 h3
        rw [hs1] at h1
        simp at h1
      · subst hevs0
        refine ⟨by simp [requestCount, List.countP_cons, List.countP_append], ?_⟩
        intro f1 f2 f3 h1 h2 h3
        rw [hs2] at h2
        simp at h2
      · subst hevs0
        refine ⟨by simp [requestCount, List.countP_cons, List.countP_append], ?_⟩
        intro f1 f2 f3 h1 h2 h3
        rw [hs3] at h3
        simp at h3
      · exact absurd hres0 (by simp)

/-- Witness for the retry theorem: with a remote that always fails to
send, the line call makes exactly 3 requests. -/
theorem retry_three_attempts_witness :
    requestCount [Event.request 1, Event.sleep 1000, Event.request 2,
      Event.sleep 2000, Event.request 3] = 3 :=
  ((retry_three_attempts.1 defaultConfig "x" "en" none (fun _ => RemoteOutcome.sendError)
      (Except.error (ApiError.sendFailed "Failed to send translation request"))
      [Event.request 1, Event.sleep 1000, Event.request 2, Event.sleep 2000, Event.request 3]
      (by decide) (by decide)).2
    (ApiError.sendFailed "Failed to send translation request")
    (ApiError.sendFailed "Failed to send translation request")
    (ApiError.sendFailed "Failed to send translation request")
    (by decide) (by decide) (by decide)).2

/-- C7: the exact event traces of non-panicking runs, for both
translate_line (nonempty text) and translate_word: the sleep between
failed attempt n and attempt n+1 is exactly n * 1000 ms (1000 ms after
attempt 1, 2000 ms after attempt 2) and no sleep follows the final
attempt, successful or failed. -/
theorem backoff_trace :
    (∀ cfg text target_lang source_lang outcomes res evs,
      text.isEmpty = false →
      translate_line cfg text target_lang source_lang outcomes = some (res, evs) →
      (∀ r, (translate_line_attempt cfg text target_lang source_lang (outcomes 1)).2 =
          some (Except.ok r) →
        evs = [Event.request 1, Event.callback text r]) ∧
      (∀ e1 r, (translate_line_attempt cfg text target_lang source_lang (outcomes 1)).2 =
          some (Except.error e1) →
        (translate_line_attempt cfg text target_lang source_lang (outcomes 2)).2 =
          some (Except.ok r) →
        evs = [Event.request 1, Event.sleep 1000, Event.request 2,
          Event.callback text r]) ∧
      (∀ e1 e2 r, (translate_line_attempt cfg text target_lang source_lang (outcomes 1)).2 =
          some (Except.error e1) →
        (translate_line_attempt cfg text target_lang source_lang (outcomes 2)).2 =
          some (Except.error e2) →
        (translate_line_attempt cfg text target_lang source_lang (outcomes 3)).2 =
          some (Except.ok r) →
        evs = [Event.request 1, Event.sleep 1000, Event.request 2,
          Event.sleep 2000, Event.request 3, Event.callback text r]) ∧
      (∀ e1 e2 e3, (translate_line_attempt cfg text target_lang source_lang (outcomes 1)).2 =
          some (Except.error e1) →
        (translate_line_attempt cfg text target_lang source_lang (outcomes 2)).2 =
          some (Except.error e2) →
        (translate_line_attempt cfg text target_lang source_lang (outcomes 3)).2 =
          some (Except.error e3) →
        evs = [Event.request 1, Event.sleep 1000, Event.request 2,
          Event.sleep 2000, Event.request 3])) ∧
    (∀ cfg word target_lang source_lang outcomes res evs,
      translate_word cfg word target_lang source_lang outcomes = some (res, evs) →
      (∀ r, (translate_word_attempt cfg word target_lang source_lang (outcomes 1)).2 =
          some (Except.ok r) →
        evs = [Event.request 1, Event.callback word r]) ∧
      (∀ e1 r, (translate_word_attempt cfg word target_lang source_lang (outcomes 1)).2 =
          some (Except.error e1) →
        (translate_word_attempt cfg word target_lang source_lang (outcomes 2)).2 =
          some (Except.ok r) →
        evs = [Event.request 1, Event.sleep 1000, Event.request 2,
          Event.callback word r]) ∧
      (∀ e1 e2 r, (translate_word_attempt cfg word target_lang source_lang (outcomes 1)).2 =
          some (Except.error e1) →
        (translate_word_attempt cfg word target_lang source_lang (outcomes 2)).2 =
          some (Except.error e2) →
        (translate_word_attempt cfg word target_lang source_lang (outcomes 3)).2 =
          some (Except.ok r) →
        evs = [Event.request 1, Event.sleep 1000, Event.request 2,
          Event.sleep 2000, Event.request 3, Event.callback word r]) ∧
      (∀ e1 e2 e3, (translate_word_attempt cfg word target_lang source_lang (outcomes 1)).2 =
          some (Except.error e1) →
        (translate_word_attempt cfg word target_lang source_lang (outcomes 2)).2 =
          some (Except.error e2) →
        (translate_word_attempt cfg word target_lang source_lang (outcomes 3)).2 =
          some (Except.error e3) →
        evs = [Event.request 1, Event.sleep 1000, Event.request 2,
          Event.sleep 2000, Event.request 3])) := by
  constructor
  · intro cfg text tl sl outcomes res evs hE hrun
    refine ⟨?_, ?_, ?_, ?_⟩
    · intro r h1
      rw [translate_line_loop_ok cfg text tl sl outcomes r [Event.request 1] hE
        (attemptLoop_ok1 _ r h1)] at hrun
      simp only [Option.some.injEq, Prod.mk.injEq, List.cons_append, List.nil_append] at hrun
      exact hrun.2.symm
    · intro e1 r h1 h2
      rw [translate_line_loop_ok cfg text tl sl outcomes r
        [Event.request 1, Event.sleep 1000, Event.request 2] hE
        (attemptLoop_err1_ok2 _ e1 r h1 h2)] at hrun
      simp only [Option.some.injEq, Prod.mk.injEq, List.cons_append, List.nil_append] at hrun
      exact hrun.2.symm
    · intro e1 e2 r h1 h2 h3
      rw [translate_line_loop_ok cfg text tl sl outcomes r
        [Event.request 1, Event.sleep 1000, Event.request 2,
          Event.sleep 2000, Event.request 3] hE
        (attemptLoop_err12_ok3 _ e1 e2 r h1 h2 h3)] at hrun
      simp only [Option.some.injEq, Prod.mk.injEq, List.cons_append, List.nil_append] at hrun
      exact hrun.2.symm
    · intro e1 e2 e3 h1 h2 h3
      rw [translate_line_loop_err cfg text tl sl outcomes e3
        [Event.request 1, Event.sleep 1000, Event.request 2,
          Event.sleep 2000, Event.request 3] hE
        (attemptLoop_err123 _ e1 e2 e3 h1 h2 h3)] at hrun
      simp only [Option.some.injEq, Prod.mk.injEq] at hrun
      exact hrun.2.symm
  · intro cfg word tl sl outcomes res evs hrun
    refine ⟨?_, ?_, ?_, ?_⟩
    · intro r h1
      rw [translate_word_loop_ok cfg word tl sl outcomes r [Event.request 1]
        (attemptLoop_ok1 _ r h1)] at hrun
      simp only [Option.some.injEq, Prod.mk.injEq, List.cons_append, List.nil_append] at hrun
      exact hrun.2.symm
    · intro e1 r h1 h2
      rw [translate_word_loop_ok cfg word tl sl outcomes r
        [Event.request 1, Event.sleep 1000, Event.request 2]
        (attemptLoop_err1_ok2 _ e1 r h1 h2)] at hrun
      simp only [Option.some.injEq, Prod.mk.injEq, List.cons_append, List.nil_append] at hrun
      exact hrun.2.symm
    · intro e1 e2 r h1 h2 h3
      rw [translate_word_loop_ok cfg word tl sl outcomes r
        [Event.request 1, Event.sleep 1000, Event.request 2,
          Event.sleep 2000, Event.request 3]
        (attemptLoop_err12_ok3 _ e1 e2 r h1 h2 h3)] at hrun
      simp only [Option.some.injEq, Prod.mk.injEq, List.cons_append, List.nil_append] at hrun
      exact hrun.2.symm
    · intro e1 e2 e3 h1 h2 h3
      rw [translate_word_loop_err cfg word tl sl outcomes e3
        [Event.request 1, Event.sleep 1000, Event.request 2,
          Event.sleep 2000, Event.request 3]
        (attemptLoop_err123 _ e1 e2 e3 h1 h2 h3)] at hrun
      simp only [Option.some.injEq, Prod.mk.injEq] at hrun
      exact hrun.2.symm

/-- Witness for the backoff theorem: a remote failing on attempt 1 and
succeeding on attempt 2 yields exactly one 1000 ms sleep, between the two
requests. -/
theorem backoff_trace_witness :
    ([Event.request 1, Event.sleep 1000, Event.request 2,
        Event.callback "x" "hi"] : List Event) =
      [Event.request 1, Event.sleep 1000, Event.request 2, Event.callback "x" "hi"] :=
  (backoff_trace.1 defaultConfig "x" "en" none
      (fun i => if i == 1 then RemoteOutcome.sendError
                else RemoteOutcome.reply 200 none
                  (HttpBody.parsed ⟨[⟨⟨"assistant", "hi"⟩⟩]⟩))
      (Except.ok ())
      [Event.request 1, Event.sleep 1000, Event.request 2, Event.callback "x" "hi"]
      (by decide) (by decide)).2.1
    (ApiError.sendFailed "Failed to send translation request") "hi" (by decide) (by decide)

/-- C8: an empty text short-circuits translate_line to one callback with
an empty translation, success, and no request or sleep events; the
asymmetric translate_word has no such short-circuit: any run of it, even
on empty input, issues at least one request. -/
theorem empty_text_shortcircuit :
    (∀ cfg target_lang source_lang outcomes,
      translate_line cfg "" target_lang source_lang outcomes =
        some (Except.ok (), [Event.callback "" ""])) ∧
    (∀ cfg word target_lang source_lang outcomes res evs,
      translate_word cfg word target_lang source_lang outcomes = some (res, evs) →
      1 ≤ requestCount evs) := by
  constructor
  · intro cfg tl sl outcomes
    rfl
  · intro cfg word tl sl outcomes res evs hrun
    rcases hloop : attemptLoop
        (fun attempt => (translate_word_attempt cfg word tl sl (outcomes attempt)).2)
        3 [1, 2, 3] none with _ | ⟨(e0 | r0), evs0⟩
    · rw [translate_word_loop_none cfg word tl sl outcomes hloop] at hrun
      simp at hrun
    · rw [translate_word_loop_err cfg word tl sl outcomes e0 evs0 hloop] at hrun
      simp only [Option.some.injEq, Prod.mk.injEq] at hrun
      obtain ⟨-, hevs⟩ := hrun
      subst hevs
      rcases attemptLoop3_cases _ _ _ hloop with
        ⟨r, hs1, hres0, hevs0⟩ | ⟨e1, r, hs1, hs2, hres0, hevs0⟩ |
        ⟨e1, e2, r, hs1, hs2, hs3, hres0, hevs0⟩ | ⟨e1, e2, e3, hs1, hs2, hs3, hres0, hevs0⟩ <;>
      subst hevs0 <;> simp [requestCount, List.countP_cons]
    · rw [translate_word_loop_ok cfg word tl sl outcomes r0 evs0 hloop] at hrun
      simp only [Option.some.injEq, Prod.mk.injEq] at hrun
      obtain ⟨-, hevs⟩ := hrun
      subst hevs
      rcases attemptLoop3_cases _ _ _ hloop with
        ⟨r, hs1, hres0, hevs0⟩ | ⟨e1, r, hs1, hs2, hres0, hevs0⟩ |
        ⟨e1, e2, r, hs1, hs2, hs3, hres0, hevs0⟩ | ⟨e1, e2, e3, hs1, hs2, hs3, hres0, hevs0⟩ <;>
      subst hevs0 <;> simp [requestCount, List.countP_cons, List.countP_append]

/-- Witness for the short-circuit theorem: the line call on empty text,
and a word call that still issues requests. -/
theorem empty_text_shortcircuit_witness :
    translate_line defaultConfig "" "en" none (fun _ => RemoteOutcome.sendError) =
      some (Except.ok (), [Event.callback "" ""]) ∧
    1 ≤ requestCount [Event.request 1, Event.sleep 1000, Event.request 2,
      Event.sleep 2000, Event.request 3] :=
  ⟨empty_text_shortcircuit.1 defaultConfig "en" none (fun _ => RemoteOutcome.sendError),
   empty_text_shortcircuit.2 defaultConfig "" "en" none (fun _ => RemoteOutcome.sendError)
     (Except.error (ApiError.sendFailed "Failed to send word translation request"))
     [Event.request 1, Event.sleep 1000, Event.request 2, Event.sleep 2000, Event.request 3]
     (by decide)⟩

/-- C9: in every non-panicking run of translate_line or translate_word, a
success means the callback fired exactly once, with the original text as
its first argument and the cleaned translation returned by the successful
attempt as its second argument (for the empty-text short-circuit of
translate_line, which runs no attempt, the translation is the empty
string); an error result means the callback never fired. -/
theorem callback_exactly_once :
    (∀ cfg text target_lang source_lang outcomes res evs,
      translate_line cfg text target_lang source_lang outcomes = some (res, evs) →
      (res = Except.ok () →
        callbackCount evs = 1 ∧
        (∀ o t, Event.callback o t ∈ evs → o = text) ∧
        (text.isEmpty = true → evs = [Event.callback text ""]) ∧
        (text.isEmpty = false →
          ∃ i r, i ∈ ([1, 2, 3] : List Nat) ∧
            (translate_line_attempt cfg text target_lang source_lang (outcomes i)).2 =
              some (Except.ok r) ∧
            ∀ o t, Event.callback o t ∈ evs → o = text ∧ t = r)) ∧
      (∀ e, res = Except.error e → callbackCount evs = 0)) ∧
    (∀ cfg word target_lang source_lang outcomes res evs,
      translate_word cfg word target_lang source_lang outcomes = some (res, evs) →
      (res = Except.ok () →
        callbackCount evs = 1 ∧
        ∃ i r, i ∈ ([1, 2, 3] : List Nat) ∧
          (translate_word_attempt cfg word target_lang source_lang (outcomes i)).2 =
            some (Except.ok r) ∧
          ∀ o t, Event.callback o t ∈ evs → o = word ∧ t = r) ∧
      (∀ e, res = Except.error e → callbackCount evs = 0)) := by
  constructor
  · intro cfg text tl sl outcomes res evs hrun
    cases hE : text.isEmpty with
    | true =>
      unfold translate_line at hrun
      rw [if_pos hE] at hrun
      simp only [Option.some.injEq, Prod.mk.injEq] at hrun
      obtain ⟨hres, hevs⟩ := hrun
      subst hres; subst hevs
      constructor
      · intro _
        refine ⟨by simp [callbackCount, List.countP_cons], ?_, fun _ => rfl, ?_⟩
        · intro o t hmem
          simp at hmem
          exact hmem.1
        · intro hff
          simp at hff
      · intro e he
        simp at he
    | false =>
      rcases hloop : attemptLoop
          (fun attempt => (translate_line_attempt cfg text tl sl (outcomes attempt)).2)
          3 [1, 2, 3] none with _ | ⟨(e0 | r0), evs0⟩
      · rw [translate_line_loop_none cfg text tl sl outcomes hE hloop] at hrun
        simp at hrun
      · rw [translate_line_loop_err cfg text tl sl outcomes e0 evs0 hE hloop] at hrun
        simp only [Option.some.injEq, Prod.mk.injEq] at hrun
        obtain ⟨hres, hevs⟩ := hrun
        subst hres; subst hevs
        rcases attemptLoop3_cases _ _ _ hloop with
          ⟨r, hs1, hres0, hevs0⟩ | ⟨e1, r, hs1, hs2, hres0, hevs0⟩ |
          ⟨e1, e2, r, hs1, hs2, hs3, hres0, hevs0⟩ | ⟨e1, e2, e3, hs1, hs2, hs3, hres0, hevs0⟩
        · exact absurd hres0 (by simp)
        · exact absurd hres0 (by simp)
        · exact absurd hres0 (by simp)
        · subst hevs0
          exact ⟨fun hok => by simp at hok,
            fun e he => by simp [callbackCount, List.countP_cons]⟩
      · rw [translate_line_loop_ok cfg text tl sl outcomes r0 evs0 hE hloop] at hrun
        simp only [Option.some.injEq, Prod.mk.injEq] at hrun
        obtain ⟨hres, hevs⟩ := hrun
        subst hres; subst hevs
        rcases attemptLoop3_cases _ _ _ hloop with
          ⟨r, hs1, hres0, hevs0⟩ | ⟨e1, r, hs1, hs2, hres0, hevs0⟩ |
          ⟨e1, e2, r, hs1, hs2, hs3, hres0, hevs0⟩ | ⟨e1, e2, e3, hs1, hs2, hs3, hres0, hevs0⟩
        · have hr : r0 = r := by simpa using hres0
          subst hr
          subst hevs0
          refine ⟨fun _ => ⟨by simp [callbackCount, List.countP_cons, List.countP_append],
            ?_, ?_, ?_⟩, fun e he => by simp at he⟩
          · intro o t hmem
            simp at hmem
            exact hmem.1
          · intro htt
            simp at htt
          · intro _
            refine ⟨1, r0, by decide, hs1, ?_⟩
            intro o t hmem
            simp at hmem
            exact hmem
        · have hr : r0 = r := by simpa using hres0
          subst hr
          subst hevs0
          refine ⟨fun _ => ⟨by simp [callbackCount, List.countP_cons, List.countP_append],
            ?_, ?_, ?_⟩, fun e he => by simp at he⟩
          · intro o t hmem
            simp at hmem
            exact hmem.1
          · intro htt
            simp at htt
          · intro _
            refine ⟨2, r0, by decide, hs2, ?_⟩
            intro o t hmem
            simp at hmem
            exact hmem
        · have hr : r0 = r := by simpa using hres0
          subst hr
          subst hevs0
          refine ⟨fun _ => ⟨by simp [callbackCount, List.countP_cons, List.countP_append],
            ?_, ?_, ?_⟩, fun e he => by simp at he⟩
          · intro o t hmem
            simp at hmem
            exact hmem.1
          · intro htt
            simp at htt
          · intro _
            refine ⟨3, r0, by decide, hs3, ?_⟩
            intro o t hmem
            simp at hmem
            exact hmem
        · exact absurd hres0 (by simp)
  · intro cfg word tl sl outcomes res evs hrun
    rcases hloop : attemptLoop
        (fun attempt => (translate_word_attempt cfg word tl sl (outcomes attempt)).2)
        3 [1, 2, 3] none with _ | ⟨(e0 | r0), evs0⟩
    · rw [translate_word_loop_none cfg word tl sl outcomes hloop] at hrun
      simp at hrun
    · rw [translate_word_loop_err cfg word tl sl outcomes e0 evs0 hloop] at hrun
      simp only [Option.some.injEq, Prod.mk.injEq] at hrun
      obtain ⟨hres, hevs⟩ := hrun
      subst hres; subst hevs
      rcases attemptLoop3_cases _ _ _ hloop with
        ⟨r, hs1, hres0, hevs0⟩ | ⟨e1, r, hs1, hs2, hres0, hevs0⟩ |
        ⟨e1, e2, r, hs1, hs2, hs3, hres0, hevs0⟩ | ⟨e1, e2, e3, hs1, hs2, hs3, hres0, hevs0⟩
      · exact absurd hres0 (by simp)
      · exact absurd hres0 (by simp)
      · exact absurd hres0 (by simp)
      · subst hevs0
        exact ⟨fun hok => by simp at hok,
          fun e he => by simp [callbackCount, List.countP_cons]⟩
    · rw [translate_word_loop_ok cfg word tl sl outcomes r0 evs0 hloop] at hrun
      simp only [Option.some.injEq, Prod.mk.injEq] at hrun
      obtain ⟨hres, hevs⟩ := hrun
      subst hres; subst hevs
      rcases attemptLoop3_cases _ _ _ hloop with
        ⟨r, hs1, hres0, hevs0⟩ | ⟨e1, r, hs1, hs2, hres0, hevs0⟩ |
        ⟨e1, e2, r, hs1, hs2, hs3, hres0, hevs0⟩ | ⟨e1, e2, e3, hs1, hs2, hs3, hres0, hevs0⟩
      · have hr : r0 = r := by simpa using hres0
        subst hr
        subst hevs0
        refine ⟨fun _ => ⟨by simp [callbackCount, List.countP_cons, List.countP_append],
          1, r0, by decide, hs1, ?_⟩, fun e he => by simp at he⟩
        intro o t hmem
        simp at hmem
        exact hmem
      · have hr : r0 = r := by simpa using hres0
        subst hr
        subst hevs0
        refine ⟨fun _ => ⟨by simp [callbackCount, List.countP_cons, List.countP_append],
          2, r0, by decide, hs2, ?_⟩, fun e he => by simp at he⟩
        intro o t hmem
        simp at hmem
        exact hmem
      · have hr : r0 = r := by simpa using hres0
        subst hr
        subst hevs0
        refine ⟨fun _ => ⟨by simp [callbackCount, List.countP_cons, List.countP_append],
          3, r0, by decide, hs3, ?_⟩, fun e he => by simp at he⟩
        intro o t hmem
        simp at hmem
        exact hmem
      · exact absurd hres0 (by simp)

/-- Witness for the callback theorem: a first-attempt success fires the
callback exactly once. -/
theorem callback_exactly_once_witness :
    callbackCount [Event.request 1, Event.callback "x" "hi"] = 1 :=
  ((callback_exactly_once.1 defaultConfig "x" "en" none
      (fun _ => RemoteOutcome.reply 200 none (HttpBody.parsed ⟨[⟨⟨"assistant", "hi"⟩⟩]⟩))
      (Except.ok ()) [Event.request 1, Event.callback "x" "hi"] (by decide)).1 rfl).1

/-- C10 counterexample: the two attempt functions do not differ only in
the prompt strings: on a send failure they return different errors,
because the source attaches different anyhow context messages at the send
site (translator.rs line 129 versus line 238). -/
theorem attempt_send_context_counterexample :
    (translate_line_attempt defaultConfig "x" "en" none RemoteOutcome.sendError).2 =
      some (Except.error (ApiError.sendFailed "Failed to send translation request")) ∧
    (translate_word_attempt defaultConfig "x" "en" none RemoteOutcome.sendError).2 =
      some (Except.error (ApiError.sendFailed "Failed to send word translation request")) ∧
    (translate_word_attempt defaultConfig "x" "en" none RemoteOutcome.sendError).2 ≠
      (translate_line_attempt defaultConfig "x" "en" none RemoteOutcome.sendError).2 := by
  decide

/-- C10 amended: both attempt functions coincide with the common
abstraction instantiated at their own system prompt, user prompt and
send-failure context message, for every configuration, input and remote
outcome — so they build the same request shape and handle responses
identically, differing only in those three strings; on every reply
outcome (anything but a send failure) their results are literally equal;
and in the common shape the Authorization header is present exactly when
the api_key is present and non-empty, the URL is the endpoint followed by
/chat/completions, and model, temperature and max_tokens come from the
configuration. -/
theorem attempts_differ_only_in_prompts_and_send_context :
    (∀ cfg text target_lang source_lang outcome,
      translate_line_attempt cfg text target_lang source_lang outcome =
        generic_attempt cfg lineSystemPrompt
          (build_line_translation_prompt text target_lang source_lang)
          "Failed to send translation request" outcome) ∧
    (∀ cfg word target_lang source_lang outcome,
      translate_word_attempt cfg word target_lang source_lang outcome =
        generic_attempt cfg wordSystemPrompt
          (build_word_translation_prompt word target_lang source_lang)
          "Failed to send word translation request" outcome) ∧
    (∀ cfg text word target_lang source_lang statusCode bodyText body,
      (translate_line_attempt cfg text target_lang source_lang
          (RemoteOutcome.reply statusCode bodyText body)).2 =
        (translate_word_attempt cfg word target_lang source_lang
          (RemoteOutcome.reply statusCode bodyText body)).2) ∧
    (∀ cfg systemPrompt userPrompt sendContext outcome,
      ((generic_attempt cfg systemPrompt userPrompt sendContext outcome).1.authHeader ≠ none ↔
        ∃ k, cfg.api_key = some k ∧ k.isEmpty = false) ∧
      (generic_attempt cfg systemPrompt userPrompt sendContext outcome).1.url =
        cfg.endpoint ++ "/chat/completions" ∧
      (generic_attempt cfg systemPrompt userPrompt sendContext outcome).1.body.model =
        cfg.model ∧
      (generic_attempt cfg systemPrompt userPrompt sendContext outcome).1.body.temperature =
        cfg.temperature ∧
      (generic_attempt cfg systemPrompt userPrompt sendContext outcome).1.body.max_tokens =
        cfg.max_tokens ∧
      (generic_attempt cfg systemPrompt userPrompt sendContext outcome).1.body.messages =
        [{ role := "system", content := systemPrompt },
         { role := "user", content := userPrompt }]) := by
  refine ⟨fun cfg text tl sl outcome => rfl, fun cfg word tl sl outcome => rfl,
    fun cfg text word tl sl sc bt b => rfl, ?_⟩
  intro cfg sp up sc outcome
  refine ⟨?_, rfl, rfl, rfl, rfl, rfl⟩
  rcases hk : cfg.api_key with _ | k
  · simp [generic_attempt, hk]
  · cases he : k.isEmpty with
    | true =>
      simp [generic_attempt, hk, he]
    | false =>
      simp [generic_attempt, hk, he]

end Tzh
